import Mathlib

/-!
Verification of the BestBuy store/product domain logic.

The Python source (`products.py`, `store.py`) is embedded shallowly:

* `Product` is a structure carrying `name`, `price`, `quantity`, `active`.
  Python's unbounded `int` is `ℤ`; the `float` price is embedded as `ℚ`
  (all arithmetic the code performs on it is exact multiplication and
  addition, transcribed directly).
* Python exceptions become an inductive `PyErr` carrying the exception
  class and its message string, and every method that can raise returns
  an `Except PyErr` value.  A mutating method returns the post-state of
  `self` next to the outcome: in the source every `raise` happens before
  any mutation, and the embedding keeps each branch's state explicit so
  that "unchanged on error" is a theorem about the translated code, not
  a modelling convention.
* Python objects are compared by identity (`Product` defines no `__eq__`),
  so `Store` holds a list of product identities (`PId := Nat`) and the
  mutable objects live in a heap `PId → Product`.  `Store.order` threads
  that heap through the successive `Product.buy` calls, which is exactly
  the aliasing behaviour of the source.
-/

namespace BestBuy

/-- A raised Python exception: its class and its message.
`valueError` is `ValueError`, the other two are the classes defined at the
top of `products.py`. -/
inductive PyErr where
  | valueError (msg : String)
  | productNotActiveError (msg : String)
  | productQuantityError (msg : String)
deriving DecidableEq, Repr

/-- The state of one `Product` object (`products.py`). -/
structure Product where
  name : String
  price : ℚ
  quantity : ℤ
  active : Bool
deriving DecidableEq, Repr

/-- `Product.__init__`: validates the three arguments in order and, on
success, stores them with `active = True`.  Python's `not name` on a
string is the emptiness test. -/
def Product.init (name : String) (price : ℚ) (quantity : ℤ) : Except PyErr Product :=
  if name = "" then
    .error (.valueError "A product's name cannot be empty.")
  else if price < 0 then
    .error (.valueError "A product's price cannot be less than zero.")
  else if quantity < 0 then
    .error (.valueError "A product's quantity cannot be less than zero.")
  else
    .ok { name := name, price := price, quantity := quantity, active := true }

/-- `Product.get_quantity`. -/
def Product.get_quantity (p : Product) : ℤ := p.quantity

/-- `Product.is_active`. -/
def Product.is_active (p : Product) : Bool := p.active

/-- `Product.activate`. -/
def Product.activate (p : Product) : Product := { p with active := true }

/-- `Product.deactivate`. -/
def Product.deactivate (p : Product) : Product := { p with active := false }

/-- `Product.set_quantity`: rejects a negative quantity (before touching
`self`), calls `self.deactivate()` when the new quantity is zero, and then
assigns `self.quantity`. -/
def Product.set_quantity (p : Product) (quantity : ℤ) : Product × Except PyErr Unit :=
  if quantity < 0 then
    (p, .error (.valueError "A product's quantity cannot be less than zero."))
  else if quantity = 0 then
    ({ p.deactivate with quantity := quantity }, .ok ())
  else
    ({ p with quantity := quantity }, .ok ())

/-- The message of the `ProductQuantityError` raised by `Product.buy` when
the requested amount exceeds the stock: the f-string
`f"Product only has {self.quantity} in stock"`. -/
def stockMsg (available : ℤ) : String :=
  "Product only has " ++ toString available ++ " in stock"

/-- `Product.buy`: inactive check first, then the overdraw check, then the
`quantity < 1` check; on success it routes the decrement through
`set_quantity` and returns `quantity * self.price`. -/
def Product.buy (p : Product) (quantity : ℤ) : Product × Except PyErr ℚ :=
  if !p.active then
    (p, .error (.productNotActiveError "Product Inactive"))
  else if quantity > p.quantity then
    (p, .error (.productQuantityError (stockMsg p.quantity)))
  else if quantity < 1 then
    (p, .error (.productQuantityError "Product Quantity Invalid"))
  else
    match p.set_quantity (p.quantity - quantity) with
    | (p1, .error e) => (p1, .error e)
    | (p1, .ok _) => (p1, .ok ((quantity : ℚ) * p.price))

/-- A Python object identity for a `Product`.  `Product` defines no
`__eq__`, so list membership and removal in `store.py` compare by
identity; identities are modelled as naturals. -/
abbrev PId := Nat

/-- The mutable objects: which `Product` state each identity refers to. -/
abbrev Heap := PId → Product

/-- The state of one `Store` object (`store.py`): the ordered list of
product references. -/
structure Store where
  products : List PId
deriving DecidableEq, Repr

/-- `Store.add_product`: rejects a product already present (membership by
identity), otherwise appends it. -/
def Store.add_product (s : Store) (product : PId) : Store × Except PyErr Unit :=
  if product ∈ s.products then
    (s, .error (.valueError "This product is already in store inventory."))
  else
    ({ products := s.products ++ [product] }, .ok ())

/-- `Store.remove_product`: rejects a product not present, otherwise
`list.remove` deletes the first occurrence. -/
def Store.remove_product (s : Store) (product : PId) : Store × Except PyErr Unit :=
  if product ∉ s.products then
    (s, .error (.valueError "This product does not exist in store inventory."))
  else
    ({ products := s.products.erase product }, .ok ())

/-- `Store.get_total_quantity`: the sum of `product.quantity` over the
whole list, read through the heap. -/
def Store.get_total_quantity (h : Heap) (s : Store) : ℤ :=
  (s.products.map (fun product => (h product).quantity)).sum

/-- `Store.get_all_products`: the products for which `is_active()` holds,
in list order. -/
def Store.get_all_products (h : Heap) (s : Store) : List PId :=
  s.products.filter (fun product => (h product).is_active)

/-- The loop of `Store.order`: walks the shopping list in order, calls
`buy` on each product (writing its new state back to the heap) and
accumulates the returned prices; the first raised error aborts the loop
with the heap as already mutated. -/
def Store.orderLoop (h : Heap) (total : ℚ) : List (PId × ℤ) → Heap × Except PyErr ℚ
  | [] => (h, .ok total)
  | (product, amount) :: rest =>
    match (h product).buy amount with
    | (p1, .error e) => (Function.update h product p1, .error e)
    | (p1, .ok price) => Store.orderLoop (Function.update h product p1) (total + price) rest

/-- `Store.order`: `total_price` starts at `0` and the loop adds each
`product.buy(amount)`.  The method never reads `self.products`, so the
embedding takes only the heap and the shopping list. -/
def Store.order (h : Heap) (shopping_list : List (PId × ℤ)) : Heap × Except PyErr ℚ :=
  Store.orderLoop h 0 shopping_list

/-! ### Helper lemmas (shared) -/

/-- A successful `set_quantity` in one equation: the new quantity is stored
and the product is deactivated exactly when that quantity is zero. -/
theorem set_quantity_of_nonneg (p : Product) (q : ℤ) (h : 0 ≤ q) :
    p.set_quantity q =
      ({ name := p.name, price := p.price, quantity := q,
         active := if q = 0 then false else p.active }, .ok ()) := by
  unfold Product.set_quantity Product.deactivate
  by_cases hz : q = 0
  · subst hz
    rw [if_neg (lt_irrefl 0), if_pos rfl, if_pos rfl]
  · rw [if_neg (by omega), if_neg hz, if_neg hz]

/-- A successful `buy` in one equation. -/
theorem buy_of_valid (p : Product) (q : ℤ) (hact : p.active = true)
    (h1 : 1 ≤ q) (hq : q ≤ p.quantity) :
    p.buy q =
      ({ name := p.name, price := p.price, quantity := p.quantity - q,
         active := if p.quantity - q = 0 then false else p.active },
       .ok ((q : ℚ) * p.price)) := by
  unfold Product.buy
  rw [if_neg (by simp [hact]), if_neg (by omega), if_neg (by omega),
    set_quantity_of_nonneg p _ (by omega)]

/-- `buy` raises only before mutating: an error leaves the product as it
was. -/
theorem buy_error_unchanged (p : Product) (q : ℤ) (p' : Product) (e : PyErr)
    (hbuy : p.buy q = (p', .error e)) : p' = p := by
  unfold Product.buy at hbuy
  split at hbuy
  · exact (Prod.mk.injEq _ _ _ _ ▸ hbuy).1.symm
  · split at hbuy
    · exact (Prod.mk.injEq _ _ _ _ ▸ hbuy).1.symm
    · split at hbuy
      · exact (Prod.mk.injEq _ _ _ _ ▸ hbuy).1.symm
      · rw [set_quantity_of_nonneg p _ (by omega)] at hbuy
        simp at hbuy

/-- Processing a shopping list with a running total only shifts the
returned total. -/
theorem orderLoop_shift (l : List (PId × ℤ)) : ∀ (h : Heap) (t : ℚ),
    Store.orderLoop h t l =
      ((Store.orderLoop h 0 l).1,
       (Store.orderLoop h 0 l).2.map (fun x => t + x)) := by
  induction l with
  | nil => intro h t; simp [Store.orderLoop, Except.map]
  | cons hd rest ih =>
    intro h t
    obtain ⟨pid, amt⟩ := hd
    show (match (h pid).buy amt with
      | (p1, .error e) => (Function.update h pid p1, Except.error e)
      | (p1, .ok price) =>
          Store.orderLoop (Function.update h pid p1) (t + price) rest) = _
    rcases hbuy : (h pid).buy amt with ⟨p1, r⟩
    rcases r with e | price
    · show (Function.update h pid p1, Except.error e) = _
      simp only [Store.orderLoop, hbuy, Except.map]
    · show Store.orderLoop (Function.update h pid p1) (t + price) rest = _
      simp only [Store.orderLoop, hbuy]
      rw [ih _ (t + price), ih _ (0 + price)]
      rcases (Store.orderLoop (Function.update h pid p1) 0 rest).2 with e | x
      · simp [Except.map]
      · simp [Except.map]
        ring

/-- Processing a concatenated list whose first part succeeds continues
from the state and total the first part produced. -/
theorem orderLoop_ok_append (l₁ : List (PId × ℤ)) :
    ∀ (h h₁ : Heap) (t t₁ : ℚ) (l₂ : List (PId × ℤ)),
    Store.orderLoop h t l₁ = (h₁, .ok t₁) →
    Store.orderLoop h t (l₁ ++ l₂) = Store.orderLoop h₁ t₁ l₂ := by
  induction l₁ with
  | nil =>
    intro h h₁ t t₁ l₂ hok
    obtain ⟨h1, h2⟩ := Prod.mk.injEq _ _ _ _ ▸ hok
    rw [List.nil_append, ← h1, ← Except.ok.inj h2]
  | cons hd rest ih =>
    intro h h₁ t t₁ l₂ hok
    obtain ⟨pid, amt⟩ := hd
    rcases hbuy : (h pid).buy amt with ⟨p1, r⟩
    rcases r with e | price
    · rw [Store.orderLoop, hbuy] at hok
      exact absurd (Prod.mk.injEq _ _ _ _ ▸ hok).2 (by simp)
    · rw [Store.orderLoop, hbuy] at hok
      rw [List.cons_append, Store.orderLoop, hbuy]
      exact ih _ _ _ _ _ hok

/-- The loop stops at the first entry whose `buy` raises: whatever follows
is never reached, and the state at the failure is the loop's result. -/
theorem orderLoop_first_error (h h₁ : Heap) (t t₁ : ℚ) (l₁ l₂ : List (PId × ℤ))
    (pid : PId) (amt : ℤ) (p' : Product) (e : PyErr)
    (hok : Store.orderLoop h t l₁ = (h₁, .ok t₁))
    (hbuy : (h₁ pid).buy amt = (p', .error e)) :
    Store.orderLoop h t (l₁ ++ (pid, amt) :: l₂) = (h₁, .error e) := by
  rw [orderLoop_ok_append l₁ h h₁ t t₁ _ hok, Store.orderLoop, hbuy]
  show (Function.update h₁ pid p', Except.error e) = (h₁, Except.error e)
  rw [buy_error_unchanged _ _ _ _ hbuy, Function.update_eq_self]

/-! ### The claims -/

/-- C1: buying a valid amount `q` (with `1 ≤ q ≤ Q`) from an active
product succeeds, returns exactly `q` times the unit price, leaves the
quantity at `Q - q`, and — because the update goes through the quantity
setter — deactivates the product exactly when the new quantity is zero.
Name and price are untouched. -/
theorem C1_buy_success (p : Product) (q : ℤ) (hact : p.is_active = true)
    (h1 : 1 ≤ q) (hq : q ≤ p.get_quantity) :
    ∃ p1, p.buy q = (p1, .ok ((q : ℚ) * p.price)) ∧
      p1.get_quantity = p.get_quantity - q ∧
      (p.get_quantity - q = 0 → p1.is_active = false) ∧
      p1.name = p.name ∧ p1.price = p.price := by
  refine ⟨_, buy_of_valid p q hact h1 hq, rfl, ?_, rfl, rfl⟩
  intro hz
  simp only [Product.get_quantity] at hz
  simp [Product.is_active, hz]

/-- C1 witness: an active product with 5 in stock and unit price 10; buying
all 5 returns 50 and deactivates the product. -/
theorem C1_buy_success_witness :
    ∃ p1, (Product.mk "X" 10 5 true).buy 5 = (p1, .ok ((5 : ℚ) * 10)) ∧
      p1.get_quantity = (Product.mk "X" 10 5 true).get_quantity - 5 ∧
      ((Product.mk "X" 10 5 true).get_quantity - 5 = 0 → p1.is_active = false) ∧
      p1.name = (Product.mk "X" 10 5 true).name ∧
      p1.price = (Product.mk "X" 10 5 true).price :=
  C1_buy_success (Product.mk "X" 10 5 true) 5 rfl (by decide) (by decide)

/-- C3: `buy` checks the inactive flag first (regardless of `q`), then the
overdraw condition, then `q < 1`; each failing check raises the stated
error and a passing run raises none.  The two `ProductQuantityError`s are
distinguishable: the out-of-stock message never equals the
invalid-quantity message. -/
theorem C3_buy_errors (p : Product) (q : ℤ) :
    (p.is_active = false →
      p.buy q = (p, .error (.productNotActiveError "Product Inactive"))) ∧
    (p.is_active = true → p.get_quantity < q →
      p.buy q = (p, .error (.productQuantityError (stockMsg p.get_quantity)))) ∧
    (p.is_active = true → q ≤ p.get_quantity → q < 1 →
      p.buy q = (p, .error (.productQuantityError "Product Quantity Invalid"))) ∧
    (p.is_active = true → 1 ≤ q → q ≤ p.get_quantity →
      ∃ p1 r, p.buy q = (p1, .ok r)) ∧
    (∀ n : ℤ, stockMsg n ≠ "Product Quantity Invalid") := by
  simp only [Product.is_active, Product.get_quantity]
  refine ⟨?_, ?_, ?_, ?_, ?_⟩
  · intro hf
    unfold Product.buy
    rw [if_pos (by simp [hf])]
  · intro ht hlt
    unfold Product.buy
    rw [if_neg (by simp [ht]), if_pos (show q > p.quantity from hlt)]
  · intro ht hle hlt
    unfold Product.buy
    rw [if_neg (by simp [ht]), if_neg (by omega), if_pos hlt]
  · intro ht h1 hle
    exact ⟨_, _, buy_of_valid p q ht h1 hle⟩
  · intro n hEq
    have hlen := congrArg String.length hEq
    rw [stockMsg, String.length_append, String.length_append] at hlen
    have h17 : ("Product only has " : String).length = 17 := rfl
    have h9 : (" in stock" : String).length = 9 := rfl
    have h24 : ("Product Quantity Invalid" : String).length = 24 := rfl
    omega

/-- C3 witness: a product with 3 in stock and price 7, exercising all four
branches (inactive first even for an overdraw request, then overdraw, then
zero quantity, then success), and the two quantity-error messages at stock
level 3 differ. -/
theorem C3_buy_errors_witness :
    ((Product.mk "B" 7 3 false).buy 500 =
      (Product.mk "B" 7 3 false, .error (.productNotActiveError "Product Inactive"))) ∧
    ((Product.mk "B" 7 3 true).buy 500 =
      (Product.mk "B" 7 3 true, .error (.productQuantityError (stockMsg 3)))) ∧
    ((Product.mk "B" 7 3 true).buy 0 =
      (Product.mk "B" 7 3 true, .error (.productQuantityError "Product Quantity Invalid"))) ∧
    (∃ p1 r, (Product.mk "B" 7 3 true).buy 2 = (p1, .ok r)) ∧
    stockMsg 3 ≠ "Product Quantity Invalid" :=
  ⟨(C3_buy_errors (Product.mk "B" 7 3 false) 500).1 rfl,
   (C3_buy_errors (Product.mk "B" 7 3 true) 500).2.1 rfl (by decide),
   (C3_buy_errors (Product.mk "B" 7 3 true) 0).2.2.1 rfl (by decide) (by decide),
   (C3_buy_errors (Product.mk "B" 7 3 true) 2).2.2.2.1 rfl (by decide) (by decide),
   (C3_buy_errors (Product.mk "B" 7 3 true) 2).2.2.2.2 3⟩

/-- C4 counterexample: the constructor does not route its initial quantity
through the quantity setter — it assigns the fields directly and always
sets `active = True` — so `Product("Widget", 10, 0)` is a reachable state
(immediately after construction) with quantity 0 and `IsActive()` true,
refuting `quantity == 0 ⇒ active == false` for post-construction states. -/
theorem C4_counterexample :
    Product.init "Widget" 10 0 = .ok (Product.mk "Widget" 10 0 true) ∧
    (Product.mk "Widget" 10 0 true).get_quantity = 0 ∧
    (Product.mk "Widget" 10 0 true).is_active = true :=
  ⟨rfl, rfl, rfl⟩

/-- C4 amended: after every successful `set_quantity` and after every
successful `buy`, quantity 0 implies the product is inactive (the setter
deactivates at the moment the quantity it stores is zero); but the state
immediately after construction is exempt: construction always yields an
active product, even when the initial quantity is 0. -/
theorem C4_zero_quantity_invariant (p p1 : Product) (q : ℤ) :
    (p.set_quantity q = (p1, .ok ()) → p1.get_quantity = 0 → p1.is_active = false) ∧
    (∀ r : ℚ, p.buy q = (p1, .ok r) → p1.get_quantity = 0 → p1.is_active = false) ∧
    (∀ (name : String) (price : ℚ), Product.init name price q = .ok p →
      p.is_active = true) := by
  refine ⟨?_, ?_, ?_⟩
  · intro hset hz
    by_cases hneg : q < 0
    · rw [Product.set_quantity, if_pos hneg] at hset
      exact absurd (Prod.mk.injEq _ _ _ _ ▸ hset).2 (by simp)
    · rw [set_quantity_of_nonneg p q (by omega)] at hset
      obtain ⟨h1, -⟩ := Prod.mk.injEq _ _ _ _ ▸ hset
      subst h1
      simp only [Product.get_quantity] at hz
      simp [Product.is_active, hz]
  · intro r hbuy hz
    unfold Product.buy at hbuy
    split at hbuy
    · exact absurd (Prod.mk.injEq _ _ _ _ ▸ hbuy).2 (by simp)
    · split at hbuy
      · exact absurd (Prod.mk.injEq _ _ _ _ ▸ hbuy).2 (by simp)
      · split at hbuy
        · exact absurd (Prod.mk.injEq _ _ _ _ ▸ hbuy).2 (by simp)
        · rw [set_quantity_of_nonneg p _ (by omega)] at hbuy
          obtain ⟨h1, -⟩ := Prod.mk.injEq _ _ _ _ ▸ hbuy
          subst h1
          simp only [Product.get_quantity] at hz
          simp [Product.is_active, hz]
  · intro name price hinit
    unfold Product.init at hinit
    split at hinit
    · exact absurd hinit (by simp)
    · split at hinit
      · exact absurd hinit (by simp)
      · split at hinit
        · exact absurd hinit (by simp)
        · rw [← Except.ok.inj hinit]
          rfl

/-- C4 amended witness: setting quantity to 0 deactivates; buying the whole
stock deactivates; constructing with quantity 0 still gives an active
product. -/
theorem C4_zero_quantity_invariant_witness :
    ((Product.mk "X" 10 5 true).set_quantity 0 =
        (Product.mk "X" 10 0 false, .ok ()) →
      (Product.mk "X" 10 0 false).get_quantity = 0 →
      (Product.mk "X" 10 0 false).is_active = false) ∧
    ((Product.mk "X" 10 5 true).buy 5 = (Product.mk "X" 10 0 false, .ok 50) →
      (Product.mk "X" 10 0 false).get_quantity = 0 →
      (Product.mk "X" 10 0 false).is_active = false) ∧
    (Product.init "Widget" 10 0 = .ok (Product.mk "Widget" 10 0 true) →
      (Product.mk "Widget" 10 0 true).is_active = true) :=
  ⟨(C4_zero_quantity_invariant (Product.mk "X" 10 5 true)
      (Product.mk "X" 10 0 false) 0).1,
   (C4_zero_quantity_invariant (Product.mk "X" 10 5 true)
      (Product.mk "X" 10 0 false) 5).2.1 50,
   (C4_zero_quantity_invariant (Product.mk "Widget" 10 0 true)
      (Product.mk "Widget" 10 0 true) 0).2.2 "Widget" 10⟩

/-- C5: construction raises `ValueError` (the spec's `ValidationError`)
whenever the name is empty, the price is negative, or the quantity is
negative — any one of the three suffices — and for every valid input it
succeeds with the given fields stored and the product active. -/
theorem C5_init (name : String) (price : ℚ) (quantity : ℤ) :
    ((name = "" ∨ price < 0 ∨ quantity < 0) →
      ∃ msg, Product.init name price quantity = .error (.valueError msg)) ∧
    (name ≠ "" → 0 ≤ price → 0 ≤ quantity →
      ∃ p, Product.init name price quantity = .ok p ∧
        p.is_active = true ∧ p.name = name ∧ p.price = price ∧
        p.get_quantity = quantity) := by
  constructor
  · intro hbad
    unfold Product.init
    by_cases hn : name = ""
    · exact ⟨_, by rw [if_pos hn]⟩
    · rw [if_neg hn]
      by_cases hp : price < 0
      · exact ⟨_, by rw [if_pos hp]⟩
      · rw [if_neg hp]
        rcases hbad with hn' | hp' | hq'
        · exact absurd hn' hn
        · exact absurd hp' hp
        · exact ⟨_, by rw [if_pos hq']⟩
  · intro hn hp hq
    refine ⟨Product.mk name price quantity true, ?_, rfl, rfl, rfl, rfl⟩
    unfold Product.init
    rw [if_neg hn, if_neg (not_lt.mpr hp), if_neg (not_lt.mpr hq)]

/-- C5 witness: each bad input fails (empty name, negative price, negative
quantity, each alone), and a valid triple constructs an active product. -/
theorem C5_init_witness :
    (∃ msg, Product.init "" 10 5 = .error (.valueError msg)) ∧
    (∃ msg, Product.init "X" (-1) 5 = .error (.valueError msg)) ∧
    (∃ msg, Product.init "X" 10 (-1) = .error (.valueError msg)) ∧
    (∃ p, Product.init "X" 10 5 = .ok p ∧ p.is_active = true ∧
      p.name = "X" ∧ p.price = 10 ∧ p.get_quantity = 5) :=
  ⟨(C5_init "" 10 5).1 (Or.inl rfl),
   (C5_init "X" (-1) 5).1 (Or.inr (Or.inl (by norm_num))),
   (C5_init "X" 10 (-1)).1 (Or.inr (Or.inr (by decide))),
   (C5_init "X" 10 5).2 (by decide) (by norm_num) (by decide)⟩

/-- C6: `set_quantity` with a negative argument raises `ValueError` and
returns the product unchanged; with 0 it stores 0 and deactivates; with a
positive argument it stores that quantity and changes nothing else — in
particular the active flag is kept as it was, so a deactivated product is
not reactivated. -/
theorem C6_set_quantity (p : Product) (q : ℤ) :
    (q < 0 → p.set_quantity q =
      (p, .error (.valueError "A product's quantity cannot be less than zero."))) ∧
    (p.set_quantity 0 =
      (Product.mk p.name p.price 0 false, .ok ())) ∧
    (0 < q → p.set_quantity q =
      (Product.mk p.name p.price q p.active, .ok ())) := by
  refine ⟨?_, ?_, ?_⟩
  · intro hneg
    unfold Product.set_quantity
    rw [if_pos hneg]
  · rw [set_quantity_of_nonneg p 0 le_rfl, if_pos rfl]
  · intro hpos
    rw [set_quantity_of_nonneg p q (by omega), if_neg (by omega)]

/-- C6 witness: on an inactive product with 5 in stock, a negative argument
fails and leaves the state alone, 0 stores 0 and deactivates, and 7 stores
7 without reactivating. -/
theorem C6_set_quantity_witness :
    ((Product.mk "X" 10 5 false).set_quantity (-3) =
      (Product.mk "X" 10 5 false,
       .error (.valueError "A product's quantity cannot be less than zero."))) ∧
    ((Product.mk "X" 10 5 false).set_quantity 0 =
      (Product.mk "X" 10 0 false, .ok ())) ∧
    ((Product.mk "X" 10 5 false).set_quantity 7 =
      (Product.mk "X" 10 7 false, .ok ())) :=
  ⟨(C6_set_quantity (Product.mk "X" 10 5 false) (-3)).1 (by decide),
   (C6_set_quantity (Product.mk "X" 10 5 false) 0).2.1,
   (C6_set_quantity (Product.mk "X" 10 5 false) 7).2.2 (by decide)⟩

/-- C7: `get_all_products` returns exactly the active products — a
subsequence of the store's list (so the original relative order is kept),
every returned product is active, and each product occurs as often as in
the store's list when active and not at all when inactive.  The embedding
is pure: the store's own list is not touched. -/
theorem C7_get_all_products (h : Heap) (s : Store) :
    (Store.get_all_products h s).Sublist s.products ∧
    (∀ pid ∈ Store.get_all_products h s, (h pid).is_active = true) ∧
    (∀ pid : PId, (Store.get_all_products h s).count pid =
      if (h pid).is_active then s.products.count pid else 0) := by
  refine ⟨List.filter_sublist s.products, ?_, ?_⟩
  · intro pid hmem
    exact (List.mem_filter.mp hmem).2
  · intro pid
    by_cases ha : (h pid).is_active
    · rw [if_pos ha, Store.get_all_products,
        @List.count_filter PId _ _ (fun product => (h product).is_active) pid
          s.products ha]
    · rw [if_neg ha, Store.get_all_products, List.count_eq_zero.mpr]
      intro hmem
      exact ha (List.mem_filter.mp hmem).2

/-- C7 witness: a store holding an active and an inactive product; the
query returns only the active one, once, and keeps it active. -/
theorem C7_get_all_products_witness :
    (Store.get_all_products
        (fun pid => if pid = 0 then Product.mk "A" 10 5 true
          else Product.mk "B" 7 3 false) (Store.mk [0, 1])).Sublist [0, 1] ∧
    (((fun pid => if pid = 0 then Product.mk "A" 10 5 true
        else Product.mk "B" 7 3 false) : Heap) 0).is_active = true ∧
    (Store.get_all_products
        (fun pid => if pid = 0 then Product.mk "A" 10 5 true
          else Product.mk "B" 7 3 false) (Store.mk [0, 1])).count 0 = 1 ∧
    (Store.get_all_products
        (fun pid => if pid = 0 then Product.mk "A" 10 5 true
          else Product.mk "B" 7 3 false) (Store.mk [0, 1])).count 1 = 0 := by
  have hC := C7_get_all_products
    (fun pid => if pid = 0 then Product.mk "A" 10 5 true
      else Product.mk "B" 7 3 false) (Store.mk [0, 1])
  refine ⟨hC.1, hC.2.1 0 (by decide), ?_, ?_⟩
  · rw [hC.2.2 0]
    decide
  · rw [hC.2.2 1]
    decide

/-- C8: `get_total_quantity` sums the quantities of *all* products: it
splits as the sum over the active products (those `get_all_products`
returns) plus the sum over the inactive ones, so inactive stock counts.
The embedding is pure: the query has no side effects. -/
theorem C8_total_quantity (h : Heap) (s : Store) :
    Store.get_total_quantity h s =
      ((Store.get_all_products h s).map (fun pid => (h pid).get_quantity)).sum +
      ((s.products.filter (fun pid => !(h pid).is_active)).map
        (fun pid => (h pid).get_quantity)).sum := by
  obtain ⟨l⟩ := s
  simp only [Store.get_total_quantity, Store.get_all_products,
    Product.get_quantity]
  induction l with
  | nil => simp
  | cons a t ih =>
    by_cases ha : (h a).is_active = true
    · simp [List.filter_cons, ha, ih]
      ring
    · simp [List.filter_cons, ha, Bool.not_eq_true, ih]
      ring

/-- C9: `add_product` rejects a product already present — membership is by
object identity, here a `PId` — leaving the list as it was, and otherwise
appends at the end; `remove_product` rejects an absent product leaving the
list as it was, and otherwise removes one occurrence (the first), keeping
the remaining order (`erase` yields a subsequence one element shorter). -/
theorem C9_add_remove (s : Store) (pid : PId) :
    (pid ∈ s.products → s.add_product pid =
      (s, .error (.valueError "This product is already in store inventory."))) ∧
    (pid ∉ s.products → s.add_product pid =
      (Store.mk (s.products ++ [pid]), .ok ())) ∧
    (pid ∉ s.products → s.remove_product pid =
      (s, .error (.valueError "This product does not exist in store inventory."))) ∧
    (pid ∈ s.products →
      s.remove_product pid = (Store.mk (s.products.erase pid), .ok ()) ∧
      (s.products.erase pid).Sublist s.products ∧
      (s.products.erase pid).length + 1 = s.products.length ∧
      (s.products.erase pid).count pid = s.products.count pid - 1) := by
  refine ⟨?_, ?_, ?_, ?_⟩
  · intro hmem
    unfold Store.add_product
    rw [if_pos hmem]
  · intro hnot
    unfold Store.add_product
    rw [if_neg hnot]
  · intro hnot
    unfold Store.remove_product
    rw [if_pos hnot]
  · intro hmem
    refine ⟨?_, List.erase_sublist pid s.products,
      List.length_erase_add_one hmem, List.count_erase_self pid s.products⟩
    unfold Store.remove_product
    rw [if_neg (fun hn => hn hmem)]

/-- C9 witness: on a store holding identities 0 and 1, re-adding 0 fails
and the list is unchanged, adding 2 appends it, removing 2 fails with the
list unchanged, and removing 0 deletes exactly that one entry. -/
theorem C9_add_remove_witness :
    ((Store.mk [0, 1]).add_product 0 =
      (Store.mk [0, 1],
       .error (.valueError "This product is already in store inventory."))) ∧
    ((Store.mk [0, 1]).add_product 2 = (Store.mk ([0, 1] ++ [2]), .ok ())) ∧
    ((Store.mk [0, 1]).remove_product 2 =
      (Store.mk [0, 1],
       .error (.valueError "This product does not exist in store inventory."))) ∧
    ((Store.mk [0, 1]).remove_product 0 =
      (Store.mk (([0, 1] : List PId).erase 0), .ok ()) ∧
      (([0, 1] : List PId).erase 0).Sublist [0, 1] ∧
      (([0, 1] : List PId).erase 0).length + 1 = ([0, 1] : List PId).length ∧
      (([0, 1] : List PId).erase 0).count 0 = ([0, 1] : List PId).count 0 - 1) :=
  ⟨(C9_add_remove (Store.mk [0, 1]) 0).1 (by decide),
   (C9_add_remove (Store.mk [0, 1]) 2).2.1 (by decide),
   (C9_add_remove (Store.mk [0, 1]) 2).2.2.1 (by decide),
   (C9_add_remove (Store.mk [0, 1]) 0).2.2.2 (by decide)⟩

/-- C2: `order` walks the shopping list strictly in the given order.  If a
prefix succeeds with heap `h₁` and total `t₁` and the next entry's `buy`
raises, the whole call returns that error with heap `h₁`: everything the
prefix bought stays applied (no rollback) and later entries are never
reached.  If a prefix and the rest both succeed, the call succeeds and the
total is the sum of the two totals; a single successful entry contributes
exactly the price its `buy` returned, and the empty list yields 0 — so a
fully successful order returns the sum of the per-item prices paid. -/
theorem C2_order (h : Heap) (l₁ l₂ : List (PId × ℤ)) (pid : PId) (amt : ℤ) :
    (∀ (h₁ : Heap) (t₁ : ℚ) (p' : Product) (e : PyErr),
      Store.order h l₁ = (h₁, .ok t₁) → (h₁ pid).buy amt = (p', .error e) →
      Store.order h (l₁ ++ (pid, amt) :: l₂) = (h₁, .error e)) ∧
    (∀ (h₁ h₂ : Heap) (t₁ t₂ : ℚ),
      Store.order h l₁ = (h₁, .ok t₁) → Store.order h₁ l₂ = (h₂, .ok t₂) →
      Store.order h (l₁ ++ l₂) = (h₂, .ok (t₁ + t₂))) ∧
    (∀ (p' : Product) (price : ℚ), (h pid).buy amt = (p', .ok price) →
      Store.order h [(pid, amt)] = (Function.update h pid p', .ok price)) ∧
    Store.order h [] = (h, .ok 0) := by
  refine ⟨?_, ?_, ?_, rfl⟩
  · intro h₁ t₁ p' e hok hbuy
    exact orderLoop_first_error h h₁ 0 t₁ l₁ l₂ pid amt p' e hok hbuy
  · intro h₁ h₂ t₁ t₂ hok1 hok2
    show Store.orderLoop h 0 (l₁ ++ l₂) = _
    rw [orderLoop_ok_append l₁ h h₁ 0 t₁ l₂ hok1, orderLoop_shift l₂ h₁ t₁,
      show Store.orderLoop h₁ 0 l₂ = (h₂, .ok t₂) from hok2]
    rfl
  · intro p' price hbuy
    show Store.orderLoop h 0 [(pid, amt)] = _
    rw [Store.orderLoop, hbuy]
    show Store.orderLoop (Function.update h pid p') (0 + price) [] = _
    rw [Store.orderLoop, zero_add]

/-- C2 witness: the spec's own example.  A has 5 in stock at price 10, B
has 3 at price 7.  Ordering [(A,2),(B,500)] applies A's purchase and then
fails with B's insufficient-stock error, the heap keeping A at 3; ordering
[(A,2),(B,3)] succeeds with total 20 + 21. -/
theorem C2_order_witness :
    (Store.order
        (fun pid => if pid = 0 then Product.mk "A" 10 5 true
          else Product.mk "B" 7 3 true)
        ([(0, 2)] ++ [(1, 500)]) =
      (Function.update
        (fun pid => if pid = 0 then Product.mk "A" 10 5 true
          else Product.mk "B" 7 3 true) 0 (Product.mk "A" 10 3 true),
       .error (.productQuantityError (stockMsg 3)))) ∧
    (Store.order
        (fun pid => if pid = 0 then Product.mk "A" 10 5 true
          else Product.mk "B" 7 3 true)
        ([(0, 2)] ++ [(1, 3)]) =
      (Function.update
        (Function.update
          (fun pid => if pid = 0 then Product.mk "A" 10 5 true
            else Product.mk "B" 7 3 true) 0 (Product.mk "A" 10 3 true))
        1 (Product.mk "B" 7 0 false),
       .ok (20 + 21))) := by
  have hok := (C2_order
    (fun pid => if pid = 0 then Product.mk "A" 10 5 true
      else Product.mk "B" 7 3 true) [] [] 0 2).2.2.1
    (Product.mk "A" 10 3 true) 20
    (by norm_num [Product.buy, Product.set_quantity, Product.deactivate])
  constructor
  · exact (C2_order
      (fun pid => if pid = 0 then Product.mk "A" 10 5 true
        else Product.mk "B" 7 3 true) [(0, 2)] [] 1 500).1
      _ 20 (Product.mk "B" 7 3 true) _ hok
      (by norm_num [Product.buy, stockMsg, Function.update])
  · have hok2 := (C2_order
      (Function.update
        (fun pid => if pid = 0 then Product.mk "A" 10 5 true
          else Product.mk "B" 7 3 true) 0 (Product.mk "A" 10 3 true))
      [] [] 1 3).2.2.1 (Product.mk "B" 7 0 false) 21
      (by norm_num [Product.buy, Product.set_quantity, Product.deactivate,
        Function.update])
    exact (C2_order
      (fun pid => if pid = 0 then Product.mk "A" 10 5 true
        else Product.mk "B" 7 3 true) [(0, 2)] [(1, 3)] 0 2).2.1
      _ _ 20 21 hok hok2

/-- C10: a failing `buy` leaves the product exactly as it was — the three
checks all precede the mutation — and consequently, in a failing `order`
call, the failing entry's product is unchanged in the resulting heap: it
still holds the state it had after the successful prefix. -/
theorem C10_buy_failure_preserves_state (p : Product) (q : ℤ) :
    (∀ (p' : Product) (e : PyErr), p.buy q = (p', .error e) →
      p'.get_quantity = p.get_quantity ∧ p'.is_active = p.is_active ∧ p' = p) ∧
    (∀ (h h₁ : Heap) (l₁ l₂ : List (PId × ℤ)) (pid : PId) (t₁ : ℚ)
        (p' : Product) (e : PyErr),
      Store.order h l₁ = (h₁, .ok t₁) → (h₁ pid).buy q = (p', .error e) →
      (Store.order h (l₁ ++ (pid, q) :: l₂)).1 pid = h₁ pid) := by
  constructor
  · intro p' e hbuy
    rw [buy_error_unchanged p q p' e hbuy]
    exact ⟨rfl, rfl, rfl⟩
  · intro h h₁ l₁ l₂ pid t₁ p' e hok hbuy
    rw [show Store.order h (l₁ ++ (pid, q) :: l₂) = (h₁, .error e) from
      orderLoop_first_error h h₁ 0 t₁ l₁ l₂ pid q p' e hok hbuy]

/-- C10 witness: buying from an inactive product fails and changes neither
quantity nor flag; an order failing on its only entry (500 requested, 3 in
stock) leaves that product's heap state untouched. -/
theorem C10_buy_failure_preserves_state_witness :
    ((Product.mk "X" 10 5 false).get_quantity =
        (Product.mk "X" 10 5 false).get_quantity ∧
      (Product.mk "X" 10 5 false).is_active =
        (Product.mk "X" 10 5 false).is_active ∧
      Product.mk "X" 10 5 false = Product.mk "X" 10 5 false) ∧
    (Store.order
        (fun pid => if pid = 0 then Product.mk "A" 10 5 true
          else Product.mk "B" 7 3 true)
        ([] ++ [(1, 500)])).1 1 =
      (fun pid => if pid = 0 then Product.mk "A" 10 5 true
        else Product.mk "B" 7 3 true) 1 :=
  ⟨(C10_buy_failure_preserves_state (Product.mk "X" 10 5 false) 2).1
      (Product.mk "X" 10 5 false)
      (.productNotActiveError "Product Inactive")
      (by norm_num [Product.buy]),
   (C10_buy_failure_preserves_state (Product.mk "X" 10 5 false) 500).2
      _ _ [] [] 1 0 (Product.mk "B" 7 3 true)
      (.productQuantityError (stockMsg 3)) rfl
      (by norm_num [Product.buy, stockMsg])⟩

end BestBuy
